import Mathlib

/-!
Verification of the FinSight portfolio analytics engine against its
natural-language specification.

The engine (`backend/portfolio.py`) is shallowly embedded: the portfolio
store (a Python insertion-ordered dict from ticker to weight) becomes an
association list `List (String × ℚ)` with unique keys; company-profile
fetches become a function `String → CompanyInfo` (the gateway contract
normalises fetch failure to an all-absent record); price-history fetches
become a function `String → List (ℤ × ℚ)` listing (date, close) rows, with
fetch failure / empty frame / missing Close column collapsing to the empty
list.  Python floats are modelled as exact rationals (with the square roots
of the annualisation step living in `ℝ`), and the float NaN sentinel as
`Option.none`.
-/

namespace FinSight

/-- Python `str.upper().strip()` as `add_stock` applies it: ASCII uppercase
every character, then drop whitespace from both ends.  (Lean's own
`String.toUpper`/`String.trim` compute the same strings but are defined
through byte-position recursion that the kernel cannot evaluate, so the
character-list form is used.) -/
def stripChars (l : List Char) : List Char :=
  ((l.dropWhile Char.isWhitespace).reverse.dropWhile Char.isWhitespace).reverse

/-- Normalised ticker: `ticker.upper().strip()`. -/
def normalizeTicker (s : String) : String :=
  ⟨stripChars (s.data.map Char.toUpper)⟩

/-- Association-list lookup by string key, mirroring Python `dict` access. -/
def lookupKey {β : Type} (k : String) : List (String × β) → Option β
  | [] => none
  | p :: rest => if p.1 = k then some p.2 else lookupKey k rest

/-- Embeds `Portfolio.add_stock`: the ticker is uppercased and stripped; a
non-empty, not-yet-present ticker is appended with the given weight and an
"added" status is returned; otherwise the store is unchanged and the
"already exists" status is returned. -/
def add_stock (stocks : List (String × ℚ)) (ticker : String) (weight : ℚ) :
    List (String × ℚ) × String :=
  let t := normalizeTicker ticker
  if t ≠ "" ∧ lookupKey t stocks = none then
    (stocks ++ [(t, weight)], t ++ " added to portfolio.")
  else
    (stocks, t ++ " already exists.")

/-- Company profile record returned by the Market Data Gateway
(`_fetch_info`); a failed fetch yields the all-absent record. -/
structure CompanyInfo where
  longName : Option String
  sector : Option String
  marketCap : Option ℤ
  forwardPE : Option ℚ

/-- The sector label used throughout the engine:
`info.get("sector", "Unknown")`. -/
def sectorLabel (info : String → CompanyInfo) (t : String) : String :=
  ((info t).sector).getD "Unknown"

/-- One step of the running-total dictionary update
`sector_weights[sector] = sector_weights.get(sector, 0.0) + float(w)`,
on an insertion-ordered association list. -/
def addToKey (k : String) (w : ℚ) : List (String × ℚ) → List (String × ℚ)
  | [] => [(k, w)]
  | p :: rest => if p.1 = k then (p.1, p.2 + w) :: rest else p :: addToKey k w rest

/-- The accumulation loop of `Portfolio.sector_breakdown`: fold the holdings
in store order, adding each raw weight to its sector's running total. -/
def sectorWeights (info : String → CompanyInfo) (stocks : List (String × ℚ)) :
    List (String × ℚ) :=
  stocks.foldl (fun acc p => addToKey (sectorLabel info p.1) p.2 acc) []

/-- Embeds `Portfolio.sector_breakdown`: empty store short-circuits to `[]`;
otherwise each accumulated sector weight is scaled by 100 and the pairs are
sorted by percentage, descending (`sort(key=lambda x: x[1], reverse=True)`). -/
def sector_breakdown (info : String → CompanyInfo) (stocks : List (String × ℚ)) :
    List (String × ℚ) :=
  if stocks = [] then []
  else
    List.insertionSort (fun a b : String × ℚ => b.2 ≤ a.2)
      ((sectorWeights info stocks).map (fun p => (p.1, p.2 * 100)))

instance : IsTotal (String × ℚ) (fun a b : String × ℚ => b.2 ≤ a.2) :=
  ⟨fun a b => (le_total b.2 a.2).elim Or.inl Or.inr⟩

instance : IsTrans (String × ℚ) (fun a b : String × ℚ => b.2 ≤ a.2) :=
  ⟨fun _ _ _ h1 h2 => le_trans h2 h1⟩

/-- Daily simple returns of a close series:
`Close.pct_change().dropna()` (the leading undefined return is dropped;
each remaining entry is `cur / prev - 1`). -/
def dailyReturns (closes : List ℚ) : List ℚ :=
  List.zipWith (fun p c => c / p - 1) closes closes.tail

/-- The sample-variance formula with denominator `n - 1` (pandas `ddof=1`)
underlying `Series.std()`. -/
def sampleVarFormula (xs : List ℚ) : ℚ :=
  ((xs.map (fun x => (x - xs.sum / (xs.length : ℚ)) ^ 2)).sum) / ((xs.length : ℚ) - 1)

/-- Sample variance as pandas computes it: `Series.std(ddof=1)` is NaN
(here `none`) on a series of fewer than two observations. -/
def sampleVarQ (xs : List ℚ) : Option ℚ :=
  if xs.length < 2 then none else some (sampleVarFormula xs)

/-- Annualisation step shared by both volatility paths:
`std * math.sqrt(252.0)` applied under the NaN sentinel. -/
noncomputable def annualizedStd (v : Option ℚ) : Option ℝ :=
  v.map (fun q : ℚ => Real.sqrt (q : ℝ) * Real.sqrt 252)

/-- Per-ticker path of `Portfolio.ticker_volatilities` on one close series:
NaN when the frame is empty (or the Close column is absent — both collapse
to the empty row list in this embedding), NaN when no return survives
`dropna`, otherwise the annualised sample standard deviation (itself NaN,
via `ddof=1`, when only one return exists). -/
noncomputable def ticker_vol (closes : List ℚ) : Option ℝ :=
  if closes = [] then none
  else if dailyReturns closes = [] then none
  else annualizedStd (sampleVarQ (dailyReturns closes))

/-- Embeds `Portfolio.ticker_volatilities`: one entry per stored ticker, in
store order. -/
noncomputable def ticker_volatilities (stocks : List (String × ℚ))
    (hist : String → List (ℤ × ℚ)) : List (String × Option ℝ) :=
  stocks.map (fun p => (p.1, ticker_vol ((hist p.1).map Prod.snd)))

/-- Dated return rows of one ticker's frame, as built inside
`portfolio_volatility`: `pct_change` over closes, first (NaN) row dropped,
each surviving row keeping its own date. -/
def returnRows (h : List (ℤ × ℚ)) : List (ℤ × ℚ) :=
  List.zipWith (fun p c => (c.1, c.2 / p.2 - 1)) h h.tail

/-- The tickers that survive the data pull in `portfolio_volatility`
(a frame that is `None`/empty/Close-less — the empty list here — is
skipped), paired with their dated return rows. -/
def survivors (stocks : List (String × ℚ)) (hist : String → List (ℤ × ℚ)) :
    List (String × List (ℤ × ℚ)) :=
  stocks.filterMap (fun p =>
    if hist p.1 = [] then none else some (p.1, returnRows (hist p.1)))

/-- Whether a dated frame contains a row for date `d`. -/
def hasDate (d : ℤ) (f : List (ℤ × ℚ)) : Bool :=
  f.any (fun r => r.1 = d)

/-- The value a dated frame holds at date `d` (dates are assumed unique per
frame, as pandas requires for the reindex underlying `pd.concat`). -/
def dateVal (d : ℤ) (f : List (ℤ × ℚ)) : ℚ :=
  ((f.find? (fun r => r.1 = d)).map Prod.snd).getD 0

/-- The inner join `pd.concat(rets, axis=1).dropna()`: only dates present in
every survivor's return frame give a row; each row carries the survivors'
returns in store order.  (Row order follows the first survivor's frame
rather than pandas' sorted index; no property proved here depends on row
order.) -/
def innerJoinRows (svs : List (String × List (ℤ × ℚ))) : List (ℤ × List ℚ) :=
  match svs with
  | [] => []
  | (_, f) :: _ =>
    ((f.map Prod.fst).filter (fun d => svs.all (fun s => hasDate d s.2))).map
      (fun d => (d, svs.map (fun s => dateVal d s.2)))

/-- The aligned weighted portfolio return series: weights are the stored raw
weights of the surviving tickers renormalised to sum to one
(`pd.Series(self.stocks, index=R.columns); weights / weights.sum()`), and
each joined row contributes the weighted sum of its returns. -/
def portfolioSeries (stocks : List (String × ℚ)) (hist : String → List (ℤ × ℚ)) :
    List ℚ :=
  let svs := survivors stocks hist
  let wsum := (svs.map (fun s => (lookupKey s.1 stocks).getD 0)).sum
  (innerJoinRows svs).map (fun row =>
    (List.zipWith (fun s r => ((lookupKey s.1 stocks).getD 0 / wsum) * r) svs row.2).sum)

/-- The pre-annualisation variance of `Portfolio.portfolio_volatility`:
`none` models every NaN outcome (empty store, no survivor, empty join, and —
through `ddof=1` — a join of fewer than two rows). -/
def portfolio_variance (stocks : List (String × ℚ)) (hist : String → List (ℤ × ℚ)) :
    Option ℚ :=
  if stocks = [] then none
  else if survivors stocks hist = [] then none
  else if innerJoinRows (survivors stocks hist) = [] then none
  else sampleVarQ (portfolioSeries stocks hist)

/-- Embeds `Portfolio.portfolio_volatility`:
`float(port_ret.std() * math.sqrt(252.0))` under the NaN sentinel. -/
noncomputable def portfolio_volatility (stocks : List (String × ℚ))
    (hist : String → List (ℤ × ℚ)) : Option ℝ :=
  annualizedStd (portfolio_variance stocks hist)

/-- Base risk level of the volatility thresholds in
`ai_portfolio_insight`, stated as the spec words it. -/
def baseLevel {α : Type} [LinearOrderedField α] (v : α) : String :=
  if (2 / 5 : α) < v then "High" else if (1 / 5 : α) < v then "Moderate" else "Low"

/-- Base risk score of the volatility thresholds in
`ai_portfolio_insight`, stated as the spec words it. -/
def baseScore {α : Type} [LinearOrderedField α] (v : α) : ℕ :=
  if (2 / 5 : α) < v then 80 else if (1 / 5 : α) < v then 50 else 20

/-- Embeds the risk-classification stage of `Portfolio.ai_portfolio_insight`:
NaN volatility gives ("Unknown", "N/A"); otherwise the threshold base
(>0.40 → High/80, >0.20 → Moderate/50, else Low/20) is adjusted by the
diversification label ("Poor": +20 capped at 100 and level forced High;
"Moderate": +10 capped at 100, level unchanged). -/
def riskClassification {α : Type} [LinearOrderedField α] (pvol : Option α)
    (div : String) : String × Option ℕ :=
  match pvol with
  | none => ("Unknown", none)
  | some v =>
    let base : String × ℕ :=
      if (2 / 5 : α) < v then ("High", 80)
      else if (1 / 5 : α) < v then ("Moderate", 50)
      else ("Low", 20)
    if div = "Poor" then ("High", some (min 100 (base.2 + 20)))
    else if div = "Moderate" then (base.1, some (min 100 (base.2 + 10)))
    else (base.1, some base.2)

/-- Embeds the diversification computation inside
`Portfolio.ai_portfolio_insight`: `top_sector = sectors[0] if sectors else
("Unknown", 0)`, `concentration_flag = top_sector[1] >= 60.0`, then "Poor"
on the flag, "Moderate" below three entries, else "Good". -/
def diversificationEngine (sectors : List (String × ℚ)) : String :=
  let top := sectors.headD ("Unknown", 0)
  if (60 : ℚ) ≤ top.2 then "Poor"
  else if sectors.length < 3 then "Moderate"
  else "Good"

/-- Embeds the display layer's `compute_diversification_text` (`app.py`):
empty breakdown gives "Unknown"; otherwise the same threshold cascade. -/
def compute_diversification_text (breakdown : List (String × ℚ)) : String :=
  if breakdown = [] then "Unknown"
  else if (60 : ℚ) ≤ (breakdown.headD ("", 0)).2 then "Poor"
  else if breakdown.length < 3 then "Moderate"
  else "Good"

/-- The placeholder returned by `ai_summary`'s exception handler in
`backend/llm.py`. -/
def fallbackMsg : String :=
  "Portfolio insight unavailable: AI service not configured. Please set GEMINI_API_KEY."

/-- Embeds `ai_summary` (`backend/llm.py`): the raw model call is a fallible
black box `String → Option String`; on success the response text is
stripped and returned, on any failure the fixed placeholder is returned. -/
def ai_summary (rawModel : String → Option String) (prompt : String) : String :=
  match rawModel prompt with
  | some t => t.trim
  | none => fallbackMsg

/-- The per-stock blurb prompt built inside `get_portfolio_data`. -/
def blurbPrompt (t : String) : String :=
  "Give a brief non-advisory stock overview for " ++ t ++ "."

/-- The per-holding record assembled by `get_portfolio_data`. -/
structure HoldingData where
  name : String
  sector : String
  marketCap : ℤ
  forwardPE : Option ℚ
  summary : String

/-- Embeds `Portfolio.get_portfolio_data`: one record per stored ticker with
the profile defaults of the source (`longName` → "N/A", `sector` →
"Unknown", `marketCap` → 0) and a narrative blurb per ticker. -/
def get_portfolio_data (stocks : List (String × ℚ)) (info : String → CompanyInfo)
    (rawModel : String → Option String) : List (String × HoldingData) :=
  stocks.map (fun p =>
    (p.1,
      { name := ((info p.1).longName).getD "N/A"
        sector := sectorLabel info p.1
        marketCap := ((info p.1).marketCap).getD 0
        forwardPE := (info p.1).forwardPE
        summary := ai_summary rawModel (blurbPrompt p.1) }))

/-- Plain rendering of a rational for prompt text. -/
def qStr (q : ℚ) : String := toString q.num ++ "/" ++ toString q.den

/-- Plain rendering of a (label, rational) pair for prompt text. -/
def pairStr (p : String × ℚ) : String := "(" ++ p.1 ++ ", " ++ qStr p.2 ++ ")"

/-- Plain rendering of a list for prompt text. -/
def listStr {β : Type} (f : β → String) (l : List β) : String :=
  "[" ++ String.intercalate ", " (l.map f) ++ "]"

/-- Models the f-string prompt of `ai_portfolio_insight`.  The prompt embeds
the same data as the source (tickers, raw weights, holdings detail, sector
mix, portfolio volatility or "N/A", diversification label, risk level and
score, concentration flag with top sector, high-volatility tickers,
audience); Python's repr formatting of the embedded values is abstracted by
a canonical textual rendering, and the volatility figure is rendered from
its pre-square-root variance since the annualised value is irrational in
general.  No claim of this development depends on the prompt text. -/
def buildPrompt (stocks : List (String × ℚ)) (data : List (String × HoldingData))
    (sectors : List (String × ℚ)) (pvolVar : Option ℚ) (div : String)
    (rc : String × Option ℕ) (flag : Bool) (top : String × ℚ)
    (highNames : List String) (audience : String) : String :=
  String.intercalate "\n"
    [ "You are a portfolio analyst. Provide a concise, non-advisory overview."
    , "Portfolio:"
    , "- Tickers: " ++ listStr id (stocks.map Prod.fst)
    , "- Weights: " ++ listStr pairStr stocks
    , "- Holdings: " ++
        listStr (fun p => p.1 ++ ": " ++ p.2.name ++ ", " ++ p.2.sector ++ ", " ++
          toString p.2.marketCap) data
    , "- Sector mix: " ++ listStr pairStr sectors
    , "- Annualized volatility (3mo): " ++
        (match pvolVar with
         | none => "N/A"
         | some v => "sqrt " ++ qStr (v * 252))
    , "- Diversification: " ++ div
    , "- Risk Classification: " ++ rc.1 ++ " score " ++
        (match rc.2 with
         | none => "N/A"
         | some n => toString n) ++ " of 100"
    , "Flags:"
    , "- Sector concentration at least 60 percent: " ++ toString flag ++
        " top sector " ++ pairStr top
    , "- High-vol stocks: " ++ listStr id highNames
    , "Audience: " ++ audience
    ]

/-- The high-volatility ticker filter shared by `ai_portfolio_insight` and
`analyze_risk`: tickers whose volatility is a valid number and at least
0.40 (a NaN compares false). -/
noncomputable def high_vol_names (vols : List (String × Option ℝ)) : List String :=
  (vols.filter (fun p =>
    match p.2 with
    | some v => decide ((2 / 5 : ℝ) ≤ v)
    | none => false)).map Prod.fst

/-- Embeds `Portfolio.ai_portfolio_insight`: on an empty store the fixed
message is returned before any data pull or generator call; otherwise the
holdings data, sector mix, volatilities, diversification, and risk
classification are gathered, a prompt is built, and the generator wrapper's
answer is returned verbatim. -/
noncomputable def ai_portfolio_insight (stocks : List (String × ℚ))
    (info : String → CompanyInfo) (hist : String → List (ℤ × ℚ))
    (rawModel : String → Option String) (audience : String) : String :=
  if stocks = [] then "Portfolio is empty. Add some tickers first."
  else
    let data := get_portfolio_data stocks info rawModel
    let sectors := sector_breakdown info stocks
    let vols := ticker_volatilities stocks hist
    let pvol := portfolio_volatility stocks hist
    let top := sectors.headD ("Unknown", 0)
    let flag := decide ((60 : ℚ) ≤ top.2)
    let highNames := high_vol_names vols
    let div := diversificationEngine sectors
    let rc := riskClassification pvol div
    ai_summary rawModel
      (buildPrompt stocks data sectors (portfolio_variance stocks hist) div rc
        flag top highNames audience)

/-- Python `round(x, 3)`; ties are rounded half-up here where Python rounds
half-to-even, a difference no claim touches. -/
noncomputable def round3 (x : ℝ) : ℝ := (round (x * 1000) : ℤ) / 1000

/-- Result of `Portfolio.analyze_risk`: either the structured error marker
or a risk snapshot. -/
inductive RiskResult where
  | err (msg : String)
  | snap (pvol : Option ℝ) (flagged : Bool) (topSector : String × ℚ)
      (highVol : List String) (vols : List (String × Option ℝ))

/-- Embeds `Portfolio.analyze_risk`: the empty store short-circuits to the
error marker; otherwise the snapshot holds the rounded portfolio volatility
(`None` on NaN), the concentration flag with the top sector, the
high-volatility tickers and the full unrounded volatility map. -/
noncomputable def analyze_risk (stocks : List (String × ℚ))
    (info : String → CompanyInfo) (hist : String → List (ℤ × ℚ)) : RiskResult :=
  if stocks = [] then .err "Portfolio is empty."
  else
    let vols := ticker_volatilities stocks hist
    let pvol := portfolio_volatility stocks hist
    let sectors := sector_breakdown info stocks
    let top := sectors.headD ("Unknown", 0)
    .snap (pvol.map round3) (decide ((60 : ℚ) ≤ top.2)) top
      (high_vol_names vols) vols

/-- Result of `Portfolio.generate_report`: either the structured error
marker or the assembled report. -/
inductive ReportResult where
  | err (msg : String)
  | rep (holdings : List (String × HoldingData)) (sectors : List (String × ℚ))
      (pvol : Option ℝ) (summary : String)

/-- Embeds `Portfolio.generate_report`: the empty store short-circuits to
the error marker; otherwise the report bundles the holdings data, the
sector breakdown, the raw portfolio volatility and the narrative insight. -/
noncomputable def generate_report (stocks : List (String × ℚ))
    (info : String → CompanyInfo) (hist : String → List (ℤ × ℚ))
    (rawModel : String → Option String) (audience : String) : ReportResult :=
  if stocks = [] then .err "Portfolio is empty."
  else
    .rep (get_portfolio_data stocks info rawModel) (sector_breakdown info stocks)
      (portfolio_volatility stocks hist)
      (ai_portfolio_insight stocks info hist rawModel audience)

/-- Per-sector total raw weight over the store, the quantity the spec says
each sector's percentage reflects. -/
def keyTotal (info : String → CompanyInfo) (s : String)
    (stocks : List (String × ℚ)) : ℚ :=
  ((stocks.filter (fun p => sectorLabel info p.1 = s)).map Prod.snd).sum

/-- Example profile map: every ticker reports sector "Technology". -/
def infoTech : String → CompanyInfo :=
  fun _ => ⟨some "TechCorp", some "Technology", some 1000, none⟩

/-- Example store of two unit-weight holdings, as two default `add_stock`
calls produce. -/
def exStocks2 : List (String × ℚ) := [("A", 1), ("B", 1)]

/-- Example store with a single holding. -/
def exStocks1 : List (String × ℚ) := [("A", 1)]

/-- Example history: ticker A has exactly two bars (one valid return). -/
def exHist2bars : String → List (ℤ × ℚ) :=
  fun t => if t = "A" then [(0, 10), (1, 11)] else []

/-- Example history: tickers A and B each have three bars on common dates. -/
def exHist3bars : String → List (ℤ × ℚ) :=
  fun t =>
    if t = "A" then [(0, 10), (1, 11), (2, 12)]
    else if t = "B" then [(0, 20), (1, 21), (2, 22)]
    else []

/-- Example profile map with no data at all (every fetch failed). -/
def infoNone : String → CompanyInfo := fun _ => ⟨none, none, none, none⟩

/-- Example history with no data at all. -/
def histNone : String → List (ℤ × ℚ) := fun _ => []

/-- Example store of two holdings whose weights sum to one. -/
def exStocksHalf : List (String × ℚ) := [("A", 1 / 2), ("B", 1 / 2)]

/-! ## Store lemmas -/

theorem lookupKey_append_none {β : Type} (k : String) (l1 l2 : List (String × β))
    (h : lookupKey k l1 = none) : lookupKey k (l1 ++ l2) = lookupKey k l2 := by
  induction l1 with
  | nil => rfl
  | cons p rest ih =>
    by_cases hpk : p.1 = k
    · simp [lookupKey, hpk] at h
    · simp only [lookupKey, if_neg hpk] at h
      simpa only [List.cons_append, lookupKey, if_neg hpk] using ih h

theorem lookup_none_of_not_mem {β : Type} (k : String) (l : List (String × β))
    (h : k ∉ l.map Prod.fst) : lookupKey k l = none := by
  induction l with
  | nil => rfl
  | cons p rest ih =>
    simp only [List.map_cons, List.mem_cons] at h
    push_neg at h
    by_cases hpk : p.1 = k
    · exact absurd hpk.symm h.1
    · simp only [lookupKey, if_neg hpk]
      exact ih h.2

theorem filter_key_nil {β : Type} (k : String) (l : List (String × β))
    (h : lookupKey k l = none) : l.filter (fun p => p.1 = k) = [] := by
  induction l with
  | nil => rfl
  | cons p rest ih =>
    by_cases hpk : p.1 = k
    · simp [lookupKey, hpk] at h
    · simp only [lookupKey, if_neg hpk] at h
      simp [List.filter_cons, hpk, ih h]

theorem filter_key_singleton {β : Type} (k : String) (l : List (String × β))
    (hnd : (l.map Prod.fst).Nodup) (v : β) (h : lookupKey k l = some v) :
    (l.filter (fun p => p.1 = k)).length = 1 := by
  induction l with
  | nil => simp [lookupKey] at h
  | cons p rest ih =>
    simp only [List.map_cons, List.nodup_cons] at hnd
    by_cases hpk : p.1 = k
    · have hnone : lookupKey k rest = none :=
        lookup_none_of_not_mem k rest (hpk ▸ hnd.1)
      simp [List.filter_cons, hpk, filter_key_nil k rest hnone]
    · simp only [lookupKey, if_neg hpk] at h
      simpa [List.filter_cons, hpk] using ih hnd.2 h

theorem add_stock_existing (stocks : List (String × ℚ)) (ticker : String)
    (w v : ℚ) (h : lookupKey (normalizeTicker ticker) stocks = some v) :
    add_stock stocks ticker w = (stocks, normalizeTicker ticker ++ " already exists.") := by
  simp [add_stock, h]

theorem add_stock_fresh (stocks : List (String × ℚ)) (ticker : String) (w : ℚ)
    (hne : normalizeTicker ticker ≠ "")
    (h : lookupKey (normalizeTicker ticker) stocks = none) :
    add_stock stocks ticker w =
      (stocks ++ [(normalizeTicker ticker, w)],
        normalizeTicker ticker ++ " added to portfolio.") := by
  simp [add_stock, h, hne]

/-! ## Claim C9: duplicate add is a no-op with a status message -/

/-- C9: for every key-unique portfolio state, adding "aapl" and then adding
"AAPL" again (any weight, any case) returns the "already exists" status and
leaves the store entirely unchanged — exactly one holding for that ticker,
carrying its originally stored weight (the pre-existing weight if the ticker
was already present, else the default 1.0 stored by the first call). -/
theorem add_stock_duplicate_noop (stocks : List (String × ℚ)) (w : ℚ)
    (hnd : (stocks.map Prod.fst).Nodup) :
    (add_stock (add_stock stocks "aapl" 1).1 "AAPL" w).2 = "AAPL already exists." ∧
    (add_stock (add_stock stocks "aapl" 1).1 "AAPL" w).1 = (add_stock stocks "aapl" 1).1 ∧
    ((add_stock stocks "aapl" 1).1.filter (fun p => p.1 = "AAPL")).length = 1 ∧
    lookupKey "AAPL" (add_stock (add_stock stocks "aapl" 1).1 "AAPL" w).1 =
      some ((lookupKey "AAPL" stocks).getD 1) := by
  have hup : normalizeTicker "aapl" = "AAPL" := by decide
  have hup2 : normalizeTicker "AAPL" = "AAPL" := by decide
  have hmsg : ("AAPL" : String) ++ " already exists." = "AAPL already exists." := by decide
  rcases hL : lookupKey "AAPL" stocks with _ | w0
  · have h1 := add_stock_fresh stocks "aapl" 1 (by rw [hup]; decide) (by rw [hup]; exact hL)
    rw [hup] at h1
    have hlook : lookupKey "AAPL" (stocks ++ [("AAPL", (1 : ℚ))]) = some 1 := by
      rw [lookupKey_append_none _ _ _ hL]; simp [lookupKey]
    have h2 := add_stock_existing (stocks ++ [("AAPL", 1)]) "AAPL" w 1
      (by rw [hup2]; exact hlook)
    rw [hup2] at h2
    rw [h1, h2]
    refine ⟨hmsg, rfl, ?_, ?_⟩
    · rw [List.filter_append, filter_key_nil _ _ hL]
      simp
    · rw [hlook]
      rfl
  · have h1 := add_stock_existing stocks "aapl" 1 w0 (by rw [hup]; exact hL)
    rw [hup] at h1
    have h2 := add_stock_existing stocks "AAPL" w w0 (by rw [hup2]; exact hL)
    rw [hup2] at h2
    rw [h1, h2]
    exact ⟨hmsg, rfl, filter_key_singleton _ _ hnd _ hL, by rw [hL]; rfl⟩

/-- Witness for C9 at a concrete one-holding store. -/
theorem add_stock_duplicate_noop_witness :
    (add_stock (add_stock [("MSFT", (2 : ℚ))] "aapl" 1).1 "AAPL" 5).2 = "AAPL already exists." ∧
    (add_stock (add_stock [("MSFT", (2 : ℚ))] "aapl" 1).1 "AAPL" 5).1 =
      (add_stock [("MSFT", (2 : ℚ))] "aapl" 1).1 ∧
    ((add_stock [("MSFT", (2 : ℚ))] "aapl" 1).1.filter (fun p => p.1 = "AAPL")).length = 1 ∧
    lookupKey "AAPL" (add_stock (add_stock [("MSFT", (2 : ℚ))] "aapl" 1).1 "AAPL" 5).1 =
      some ((lookupKey "AAPL" [("MSFT", (2 : ℚ))]).getD 1) :=
  add_stock_duplicate_noop [("MSFT", 2)] 5 (by decide)

/-! ## Claim C10: blank ticker is rejected with the duplicate status -/

/-- C10: an input whose uppercased, stripped form is empty leaves the store
unchanged (no empty ticker is ever inserted) but returns the duplicate
branch's "already exists." status rather than a distinct validation
failure. -/
theorem add_stock_blank_ticker (stocks : List (String × ℚ)) (s : String) (w : ℚ)
    (h : normalizeTicker s = "") :
    add_stock stocks s w = (stocks, " already exists.") := by
  have : ("" : String) ++ " already exists." = " already exists." := rfl
  simp [add_stock, h, this]

/-- Witness for C10 at a whitespace-only ticker. -/
theorem add_stock_blank_ticker_witness :
    add_stock [("MSFT", (2 : ℚ))] "   " 3 = ([("MSFT", 2)], " already exists.") :=
  add_stock_blank_ticker _ _ _ (by decide)

/-! ## Risk-classification lemmas -/

theorem riskClassification_poor {α : Type} [LinearOrderedField α] (v : α) :
    riskClassification (some v) "Poor" = ("High", some (min 100 (baseScore v + 20))) := by
  simp only [riskClassification, baseScore]
  split_ifs <;> rfl

theorem riskClassification_moderate {α : Type} [LinearOrderedField α] (v : α) :
    riskClassification (some v) "Moderate" =
      (baseLevel v, some (min 100 (baseScore v + 10))) := by
  simp only [riskClassification, baseScore, baseLevel]
  split_ifs <;> simp_all

theorem riskClassification_other {α : Type} [LinearOrderedField α] (v : α)
    (div : String) (hp : div ≠ "Poor") (hm : div ≠ "Moderate") :
    riskClassification (some v) div = (baseLevel v, some (baseScore v)) := by
  simp only [riskClassification, baseScore, baseLevel, if_neg hp, if_neg hm]
  split_ifs <;> rfl

theorem baseScore_le (α : Type) [LinearOrderedField α] (v : α) : baseScore v ≤ 80 := by
  unfold baseScore
  split_ifs <;> decide

/-! ## Claim C5: the risk classification matches the spec's two-stage rule -/

/-- C5: if the portfolio volatility is NaN the classification is
("Unknown", "N/A"); otherwise the volatility thresholds give the base
level and score, a "Poor" diversification adds 20 (capped at 100) and
forces the level High, and a "Moderate" diversification adds 10 (capped at
100) with the level unchanged. -/
theorem risk_classification_spec {α : Type} [LinearOrderedField α]
    (pvol : Option α) (div : String) :
    (pvol = none → riskClassification pvol div = ("Unknown", none)) ∧
    (∀ v : α, pvol = some v → div = "Poor" →
      riskClassification pvol div = ("High", some (min 100 (baseScore v + 20)))) ∧
    (∀ v : α, pvol = some v → div = "Moderate" →
      riskClassification pvol div = (baseLevel v, some (min 100 (baseScore v + 10)))) ∧
    (∀ v : α, pvol = some v → div ≠ "Poor" → div ≠ "Moderate" →
      riskClassification pvol div = (baseLevel v, some (baseScore v))) := by
  refine ⟨fun h => by rw [h]; rfl, ?_, ?_, ?_⟩
  · rintro v rfl rfl
    exact riskClassification_poor v
  · rintro v rfl rfl
    exact riskClassification_moderate v
  · rintro v rfl hp hm
    exact riskClassification_other v div hp hm

/-- Witness for C5: a 30% volatility with "Poor" diversification classifies
as High with score 70. -/
theorem risk_classification_spec_witness :
    riskClassification (some (3 / 10 : ℚ)) "Poor" = ("High", some 70) := by
  have h := (risk_classification_spec (some (3 / 10 : ℚ)) "Poor").2.1 (3 / 10) rfl rfl
  have hb : baseScore (3 / 10 : ℚ) = 50 := by
    unfold baseScore
    norm_num
  rw [h, hb]
  norm_num

/-! ## Claim C7: the score never improves as diversification worsens -/

/-- C7: holding a non-NaN portfolio volatility fixed, the final risk score
is monotonically non-decreasing along Good, Moderate, Poor. -/
theorem risk_score_monotone {α : Type} [LinearOrderedField α] (v : α) :
    ∃ a b c : ℕ,
      (riskClassification (some v) "Good").2 = some a ∧
      (riskClassification (some v) "Moderate").2 = some b ∧
      (riskClassification (some v) "Poor").2 = some c ∧
      a ≤ b ∧ b ≤ c := by
  refine ⟨baseScore v, min 100 (baseScore v + 10), min 100 (baseScore v + 20), ?_, ?_, ?_, ?_, ?_⟩
  · rw [riskClassification_other v "Good" (by decide) (by decide)]
  · rw [riskClassification_moderate v]
  · rw [riskClassification_poor v]
  · have := baseScore_le α v
    omega
  · omega

/-- Witness for C7 at a concrete 30% volatility: scores 50, 60, 70. -/
theorem risk_score_monotone_witness :
    ∃ a b c : ℕ,
      (riskClassification (some (3 / 10 : ℚ)) "Good").2 = some a ∧
      (riskClassification (some (3 / 10 : ℚ)) "Moderate").2 = some b ∧
      (riskClassification (some (3 / 10 : ℚ)) "Poor").2 = some c ∧
      a ≤ b ∧ b ≤ c :=
  risk_score_monotone (3 / 10 : ℚ)

/-! ## Claim C2: the two diversification computations -/

/-- C2 counterexample: on the empty breakdown the engine's computation
yields "Moderate" (the defaulted top entry is not concentrated and zero
sectors are fewer than three) while the display layer yields "Unknown", so
the two do not agree on every finite list. -/
theorem diversification_mismatch_cex :
    diversificationEngine [] = "Moderate" ∧
    compute_diversification_text [] = "Unknown" ∧
    diversificationEngine [] ≠ compute_diversification_text [] := by
  refine ⟨rfl, rfl, ?_⟩
  decide

/-- C2 amended: on every non-empty breakdown the diversification score
computed inside `ai_portfolio_insight` equals the display layer's
`compute_diversification_text`. -/
theorem diversification_agree (l : List (String × ℚ)) (h : l ≠ []) :
    diversificationEngine l = compute_diversification_text l := by
  match l, h with
  | p :: rest, _ => rfl

/-- Witness for the amended C2 at a concrete singleton breakdown. -/
theorem diversification_agree_witness :
    diversificationEngine [("Technology", (100 : ℚ))] =
      compute_diversification_text [("Technology", (100 : ℚ))] :=
  diversification_agree _ (by decide)

/-! ## Volatility lemmas -/

theorem ticker_vol_eq_none_iff (closes : List ℚ) :
    ticker_vol closes = none ↔
      closes = [] ∨ dailyReturns closes = [] ∨ (dailyReturns closes).length < 2 := by
  unfold ticker_vol
  split_ifs with h1 h2
  · simp [h1]
  · simp [h1, h2]
  · simp only [annualizedStd, sampleVarQ, h1, h2, false_or]
    split_ifs with h3
    · simp [h3]
    · simp [h3]

theorem ticker_vol_eq_some (closes : List ℚ) (r : ℝ) (h : ticker_vol closes = some r) :
    r = Real.sqrt ((sampleVarFormula (dailyReturns closes) : ℚ) : ℝ) * Real.sqrt 252 ∧
      0 ≤ r := by
  unfold ticker_vol annualizedStd sampleVarQ at h
  split_ifs at h with h1 h2 h3
  any_goals exact absurd h (fun hh => Option.noConfusion hh)
  simp only [Option.map_some'] at h
  have hr := Option.some.inj h
  refine ⟨hr.symm, ?_⟩
  rw [← hr]
  exact mul_nonneg (Real.sqrt_nonneg _) (Real.sqrt_nonneg _)

theorem portfolioSeries_length (stocks : List (String × ℚ))
    (hist : String → List (ℤ × ℚ)) :
    (portfolioSeries stocks hist).length =
      (innerJoinRows (survivors stocks hist)).length := by
  unfold portfolioSeries
  exact List.length_map _ _

theorem portfolio_variance_eq_none_iff (stocks : List (String × ℚ))
    (hist : String → List (ℤ × ℚ)) :
    portfolio_variance stocks hist = none ↔
      stocks = [] ∨ survivors stocks hist = [] ∨
        (innerJoinRows (survivors stocks hist)).length < 2 := by
  have hlen := portfolioSeries_length stocks hist
  unfold portfolio_variance sampleVarQ
  split_ifs with h1 h2 h3 h4
  · exact iff_of_true rfl (Or.inl h1)
  · exact iff_of_true rfl (Or.inr (Or.inl h2))
  · exact iff_of_true rfl (Or.inr (Or.inr (by rw [h3]; decide)))
  · exact iff_of_true rfl (Or.inr (Or.inr (hlen ▸ h4)))
  · refine iff_of_false (by simp) ?_
    rintro (h | h | h)
    · exact h1 h
    · exact h2 h
    · exact h4 (by rw [hlen]; exact h)

theorem portfolio_variance_eq_some (stocks : List (String × ℚ))
    (hist : String → List (ℤ × ℚ)) (v : ℚ)
    (h : portfolio_variance stocks hist = some v) :
    v = sampleVarFormula (portfolioSeries stocks hist) := by
  unfold portfolio_variance sampleVarQ at h
  split_ifs at h
  exact (Option.some.inj h).symm

/-! ## Claim C4: per-ticker volatility -/

/-- C4 counterexample: a two-bar price series yields one valid daily
return, so none of the claim's NaN conditions (empty series, missing close,
zero valid returns) holds, yet the code returns NaN: `Series.std` with
`ddof=1` of a single observation is NaN. -/
theorem ticker_vol_two_bars_cex :
    ticker_vol [10, 11] = none ∧ ([10, 11] : List ℚ) ≠ [] ∧
      dailyReturns [10, 11] ≠ [] := by
  refine ⟨?_, by decide, by decide⟩
  rw [ticker_vol_eq_none_iff]
  right; right
  decide

/-- C4 amended: for every ticker in the store (with positive closes, so the
exact-rational embedding tracks the float code), `ticker_volatilities` maps
it to NaN exactly when its close series is empty (or the close field is
absent), or no valid daily return remains, or fewer than two valid daily
returns remain (the sample standard deviation of a single return is already
NaN under `ddof=1`, so a series of fewer than three bars gives NaN);
otherwise the value is the sample standard deviation of the daily returns
times √252, a non-negative real. -/
theorem ticker_volatilities_spec (stocks : List (String × ℚ))
    (hist : String → List (ℤ × ℚ)) (t : String)
    (ht : t ∈ stocks.map Prod.fst)
    (hc : ∀ c ∈ (hist t).map Prod.snd, 0 < c) :
    ∃ v, (t, v) ∈ ticker_volatilities stocks hist ∧
      (v = none ↔ (hist t).map Prod.snd = [] ∨
        dailyReturns ((hist t).map Prod.snd) = [] ∨
        (dailyReturns ((hist t).map Prod.snd)).length < 2) ∧
      ∀ r : ℝ, v = some r →
        r = Real.sqrt ((sampleVarFormula (dailyReturns ((hist t).map Prod.snd)) : ℚ) : ℝ) *
            Real.sqrt 252 ∧ 0 ≤ r := by
  obtain ⟨p, hp, rfl⟩ := List.mem_map.mp ht
  exact ⟨ticker_vol ((hist p.1).map Prod.snd),
    List.mem_map.mpr ⟨p, hp, rfl⟩,
    ticker_vol_eq_none_iff _,
    fun r hr => ticker_vol_eq_some _ r hr⟩

/-- Witness for the amended C4: a three-bar series yields a defined (non-NaN)
annualised volatility. -/
theorem ticker_volatilities_spec_witness :
    ∃ v, ("A", v) ∈ ticker_volatilities exStocks1 exHist3bars ∧ v ≠ none := by
  obtain ⟨v, hv, hiff, _⟩ :=
    ticker_volatilities_spec exStocks1 exHist3bars "A" (by decide) (by decide)
  exact ⟨v, hv, fun h => absurd (hiff.mp h) (by decide)⟩

/-! ## Claim C3: portfolio volatility -/

/-- C3 counterexample: a single ticker with two bars yields a valid return
row and a non-empty inner join, so none of the claim's NaN conditions
(empty portfolio, no valid return row, empty join) holds, yet the code
returns NaN: the joined series has a single row and `Series.std` with
`ddof=1` of one observation is NaN. -/
theorem portfolio_volatility_single_row_cex :
    portfolio_volatility exStocks1 exHist2bars = none ∧
    exStocks1 ≠ [] ∧
    survivors exStocks1 exHist2bars ≠ [] ∧
    innerJoinRows (survivors exStocks1 exHist2bars) ≠ [] := by
  refine ⟨?_, by decide, by decide, by decide⟩
  unfold portfolio_volatility annualizedStd
  rw [Option.map_eq_none']
  rw [portfolio_variance_eq_none_iff]
  right; right
  decide

/-- C3 amended: for positive weights and positive closes with unique dates
per frame (the domain on which the exact-rational embedding tracks the
float code), `portfolio_volatility` is NaN exactly when the portfolio is
empty, or no ticker survives the data pull, or the inner join of the
survivors' return series has fewer than two rows (the empty join of the
claim, and additionally the one-row join, whose sample standard deviation
is already NaN under `ddof=1`); otherwise it equals √252 times the sample
standard deviation of the per-date weighted sums of the joined returns,
with the holding weights renormalised over exactly the surviving tickers. -/
theorem portfolio_volatility_spec (stocks : List (String × ℚ))
    (hist : String → List (ℤ × ℚ))
    (hw : ∀ p ∈ stocks, 0 < p.2)
    (hc : ∀ p ∈ stocks, ∀ r ∈ hist p.1, 0 < r.2)
    (hd : ∀ p ∈ stocks, ((hist p.1).map Prod.fst).Nodup) :
    (portfolio_volatility stocks hist = none ↔
      stocks = [] ∨ survivors stocks hist = [] ∨
        (innerJoinRows (survivors stocks hist)).length < 2) ∧
    ∀ r : ℝ, portfolio_volatility stocks hist = some r →
      r = Real.sqrt ((sampleVarFormula (portfolioSeries stocks hist) : ℚ) : ℝ) *
          Real.sqrt 252 := by
  constructor
  · unfold portfolio_volatility annualizedStd
    rw [Option.map_eq_none']
    exact portfolio_variance_eq_none_iff stocks hist
  · intro r hr
    unfold portfolio_volatility annualizedStd at hr
    rcases hmap : portfolio_variance stocks hist with _ | v
    · rw [hmap] at hr
      simp at hr
    · rw [hmap] at hr
      simp only [Option.map_some'] at hr
      have hv := portfolio_variance_eq_some stocks hist v hmap
      rw [← Option.some.inj hr, hv]

/-- Witness for the amended C3: two tickers with three aligned bars give a
defined (non-NaN) portfolio volatility. -/
theorem portfolio_volatility_spec_witness :
    portfolio_volatility exStocks2 exHist3bars ≠ none := by
  intro h
  have h2 := (portfolio_volatility_spec exStocks2 exHist3bars
    (by decide) (by decide) (by decide)).1.mp h
  exact absurd h2 (by decide)

/-! ## Claim C6: empty-portfolio short-circuits -/

/-- C6: on the empty portfolio, sector_breakdown returns the empty
sequence, ticker_volatilities the empty mapping, portfolio_volatility NaN,
analyze_risk and generate_report the structured error marker (never a
snapshot or report with numeric fields), and ai_portfolio_insight the fixed
empty-portfolio message — the last two for every possible generator, so the
Narrative Generator is never consulted. -/
theorem empty_portfolio_spec (stocks : List (String × ℚ))
    (info : String → CompanyInfo) (hist : String → List (ℤ × ℚ))
    (audience : String) (h : stocks = []) :
    sector_breakdown info stocks = [] ∧
    ticker_volatilities stocks hist = [] ∧
    portfolio_volatility stocks hist = none ∧
    analyze_risk stocks info hist = RiskResult.err "Portfolio is empty." ∧
    (∀ rawModel : String → Option String,
      generate_report stocks info hist rawModel audience =
        ReportResult.err "Portfolio is empty.") ∧
    (∀ rawModel : String → Option String,
      ai_portfolio_insight stocks info hist rawModel audience =
        "Portfolio is empty. Add some tickers first.") := by
  subst h
  exact ⟨rfl, rfl, rfl, rfl, fun _ => rfl, fun _ => rfl⟩

/-- Witness for C6 on the concrete empty store. -/
theorem empty_portfolio_spec_witness :
    sector_breakdown infoNone [] = [] ∧
    ticker_volatilities [] histNone = [] ∧
    portfolio_volatility [] histNone = none ∧
    analyze_risk [] infoNone histNone = RiskResult.err "Portfolio is empty." ∧
    generate_report [] infoNone histNone (fun _ => none) "Beginner" =
      ReportResult.err "Portfolio is empty." ∧
    ai_portfolio_insight [] infoNone histNone (fun _ => none) "Beginner" =
      "Portfolio is empty. Add some tickers first." := by
  obtain ⟨h1, h2, h3, h4, h5, h6⟩ :=
    empty_portfolio_spec [] infoNone histNone "Beginner" rfl
  exact ⟨h1, h2, h3, h4, h5 _, h6 _⟩

/-! ## Claim C8: generator failure degrades only the narrative -/

/-- C8: with the Narrative Generator failing on every call, the insight on
a non-empty portfolio is exactly the fixed unavailability placeholder of
`ai_summary`'s failure branch; the risk and sector computations inside the
call still take place, and in this total embedding there is no exception to
propagate — the failure reaches the caller only as the returned string. -/
theorem generator_failure_spec (stocks : List (String × ℚ))
    (info : String → CompanyInfo) (hist : String → List (ℤ × ℚ))
    (audience : String) (h : stocks ≠ []) :
    ai_portfolio_insight stocks info hist (fun _ => none) audience = fallbackMsg := by
  unfold ai_portfolio_insight
  rw [if_neg h]
  rfl

/-- Witness for C8 on a concrete one-holding store. -/
theorem generator_failure_spec_witness :
    ai_portfolio_insight exStocks1 infoNone histNone (fun _ => none) "Beginner" =
      fallbackMsg :=
  generator_failure_spec exStocks1 infoNone histNone "Beginner" (by decide)

/-! ## Sector-accumulation lemmas -/

theorem addToKey_getD (k : String) (w : ℚ) (l : List (String × ℚ)) (s : String) :
    (lookupKey s (addToKey k w l)).getD 0 =
      (lookupKey s l).getD 0 + (if s = k then w else 0) := by
  induction l with
  | nil =>
    by_cases hks : k = s
    · simp [addToKey, lookupKey, hks]
    · have hsk : ¬s = k := fun h => hks h.symm
      simp [addToKey, lookupKey, hks, hsk]
  | cons p rest ih =>
    by_cases hpk : p.1 = k
    · by_cases hps : p.1 = s
      · have hsk : s = k := hps ▸ hpk
        simp [addToKey, lookupKey, hpk, hps, hsk]
        try ring
      · have hks : ¬k = s := fun h => hps (hpk.trans h)
        have hsk : ¬s = k := fun h => hks h.symm
        simp [addToKey, lookupKey, hpk, hps, hks, hsk]
    · by_cases hps : p.1 = s
      · have hsk : ¬s = k := fun h => hpk (by rw [hps, h])
        simp [addToKey, lookupKey, hpk, hps, hsk]
      · simp [addToKey, lookupKey, hpk, hps, ih]

theorem sectorWeights_aux_getD (info : String → CompanyInfo)
    (stocks : List (String × ℚ)) (s : String) :
    ∀ acc : List (String × ℚ),
      (lookupKey s
        (stocks.foldl (fun acc p => addToKey (sectorLabel info p.1) p.2 acc) acc)).getD 0 =
      (lookupKey s acc).getD 0 + keyTotal info s stocks := by
  induction stocks with
  | nil =>
    intro acc
    simp [keyTotal]
  | cons p rest ih =>
    intro acc
    rw [List.foldl_cons, ih, addToKey_getD]
    unfold keyTotal
    rw [List.filter_cons]
    by_cases hlab : sectorLabel info p.1 = s
    · simp [hlab]
      try ring
    · have hsl : ¬s = sectorLabel info p.1 := fun h => hlab h.symm
      simp [hlab, hsl]
      try ring

theorem sectorWeights_getD (info : String → CompanyInfo)
    (stocks : List (String × ℚ)) (s : String) :
    (lookupKey s (sectorWeights info stocks)).getD 0 = keyTotal info s stocks := by
  have h := sectorWeights_aux_getD info stocks s []
  simpa [sectorWeights, lookupKey] using h

theorem addToKey_sum (k : String) (w : ℚ) (l : List (String × ℚ)) :
    ((addToKey k w l).map Prod.snd).sum = (l.map Prod.snd).sum + w := by
  induction l with
  | nil => simp [addToKey]
  | cons p rest ih =>
    by_cases hpk : p.1 = k
    · simp [addToKey, hpk]
      ring
    · simp [addToKey, hpk, ih]
      ring

theorem sectorWeights_aux_sum (info : String → CompanyInfo)
    (stocks : List (String × ℚ)) :
    ∀ acc : List (String × ℚ),
      (((stocks.foldl (fun acc p => addToKey (sectorLabel info p.1) p.2 acc) acc)).map
        Prod.snd).sum =
      (acc.map Prod.snd).sum + (stocks.map Prod.snd).sum := by
  induction stocks with
  | nil =>
    intro acc
    simp
  | cons p rest ih =>
    intro acc
    rw [List.foldl_cons, ih, addToKey_sum]
    simp only [List.map_cons, List.sum_cons]
    ring

theorem sectorWeights_sum (info : String → CompanyInfo)
    (stocks : List (String × ℚ)) :
    ((sectorWeights info stocks).map Prod.snd).sum = (stocks.map Prod.snd).sum := by
  have h := sectorWeights_aux_sum info stocks []
  simpa [sectorWeights] using h

theorem addToKey_keys_mem (k : String) (w : ℚ) (l : List (String × ℚ)) (x : String) :
    x ∈ (addToKey k w l).map Prod.fst ↔ x ∈ l.map Prod.fst ∨ x = k := by
  induction l with
  | nil => simp [addToKey]
  | cons p rest ih =>
    by_cases hpk : p.1 = k
    · simp only [addToKey, if_pos hpk, List.map_cons, List.mem_cons]
      constructor
      · rintro (h | h)
        · exact Or.inl (Or.inl h)
        · exact Or.inl (Or.inr h)
      · rintro ((h | h) | h)
        · exact Or.inl h
        · exact Or.inr h
        · exact Or.inl (h ▸ hpk.symm)
    · simp only [addToKey, if_neg hpk, List.map_cons, List.mem_cons, ih]
      tauto

theorem addToKey_keys_nodup (k : String) (w : ℚ) (l : List (String × ℚ))
    (h : (l.map Prod.fst).Nodup) : ((addToKey k w l).map Prod.fst).Nodup := by
  induction l with
  | nil => simp [addToKey]
  | cons p rest ih =>
    simp only [List.map_cons, List.nodup_cons] at h
    by_cases hpk : p.1 = k
    · simp only [addToKey, if_pos hpk, List.map_cons, List.nodup_cons]
      exact ⟨h.1, h.2⟩
    · simp only [addToKey, if_neg hpk, List.map_cons, List.nodup_cons]
      refine ⟨?_, ih h.2⟩
      intro hmem
      rcases (addToKey_keys_mem k w rest p.1).mp hmem with hin | heq
      · exact h.1 hin
      · exact hpk heq

theorem sectorWeights_aux_nodup (info : String → CompanyInfo)
    (stocks : List (String × ℚ)) :
    ∀ acc : List (String × ℚ), (acc.map Prod.fst).Nodup →
      (((stocks.foldl (fun acc p => addToKey (sectorLabel info p.1) p.2 acc) acc)).map
        Prod.fst).Nodup := by
  induction stocks with
  | nil =>
    intro acc hacc
    simpa using hacc
  | cons p rest ih =>
    intro acc hacc
    rw [List.foldl_cons]
    exact ih _ (addToKey_keys_nodup _ _ _ hacc)

theorem sectorWeights_keys_nodup (info : String → CompanyInfo)
    (stocks : List (String × ℚ)) :
    ((sectorWeights info stocks).map Prod.fst).Nodup :=
  sectorWeights_aux_nodup info stocks [] (by simp)

theorem lookup_of_mem {β : Type} (l : List (String × β))
    (hnd : (l.map Prod.fst).Nodup) (p : String × β) (hp : p ∈ l) :
    lookupKey p.1 l = some p.2 := by
  induction l with
  | nil => cases hp
  | cons q rest ih =>
    simp only [List.map_cons, List.nodup_cons] at hnd
    rcases List.mem_cons.mp hp with rfl | hmem
    · simp [lookupKey]
    · have hq : ¬q.1 = p.1 := by
        intro he
        exact hnd.1 (he ▸ List.mem_map_of_mem Prod.fst hmem)
      simp [lookupKey, hq, ih hnd.2 hmem]

/-! ## Claim C1: sector breakdown -/

/-- C1 counterexample: a portfolio of two unit-weight holdings (exactly what
two default `add_stock` calls produce), both reporting a sector, yields a
breakdown whose percentages sum to 200, not 100: the code multiplies raw
weights by 100 without normalising them. -/
theorem sector_breakdown_sum_cex :
    ((sector_breakdown infoTech exStocks2).map Prod.snd).sum = 200 ∧
    (200 : ℚ) ≠ 100 ∧
    exStocks2 ≠ [] ∧
    ((infoTech "A").sector).isSome = true ∧
    ((infoTech "B").sector).isSome = true := by
  refine ⟨?_, by norm_num, by decide, by decide, by decide⟩
  have h1 : sector_breakdown infoTech exStocks2 = [("Technology", (1 + 1) * 100)] := rfl
  rw [h1]
  simp
  norm_num

/-- C1 amended: for a non-empty portfolio whose profile fetches all yield a
sector and whose raw weights sum to 1 (the normalisation the surrounding
API layer enforces), the sector breakdown's percentages sum to exactly 100,
the pairs are sorted in non-increasing order of percentage, and each
sector's percentage is the sum of its holdings' raw weights times 100. -/
theorem sector_breakdown_spec (info : String → CompanyInfo)
    (stocks : List (String × ℚ))
    (hne : stocks ≠ [])
    (hsec : ∀ p ∈ stocks, ((info p.1).sector).isSome)
    (hsum : (stocks.map Prod.snd).sum = 1) :
    ((sector_breakdown info stocks).map Prod.snd).sum = 100 ∧
    List.Sorted (fun a b : String × ℚ => b.2 ≤ a.2) (sector_breakdown info stocks) ∧
    ∀ p ∈ sector_breakdown info stocks, p.2 = 100 * keyTotal info p.1 stocks := by
  unfold sector_breakdown
  rw [if_neg hne]
  refine ⟨?_, List.sorted_insertionSort _ _, ?_⟩
  · have hperm := List.perm_insertionSort (fun a b : String × ℚ => b.2 ≤ a.2)
      ((sectorWeights info stocks).map (fun p => (p.1, p.2 * 100)))
    rw [(hperm.map Prod.snd).sum_eq, List.map_map]
    have hcomp : (Prod.snd ∘ fun p : String × ℚ => (p.1, p.2 * 100)) =
        fun p : String × ℚ => p.2 * 100 := rfl
    rw [hcomp, List.sum_map_mul_right, sectorWeights_sum, hsum]
    norm_num
  · intro p hp
    have hp2 : p ∈ (sectorWeights info stocks).map (fun q => (q.1, q.2 * 100)) :=
      (List.perm_insertionSort _ _).mem_iff.mp hp
    obtain ⟨q, hq, rfl⟩ := List.mem_map.mp hp2
    have hnd := sectorWeights_keys_nodup info stocks
    have hlk := lookup_of_mem _ hnd q hq
    have hval : q.2 = keyTotal info q.1 stocks := by
      have h2 := sectorWeights_getD info stocks q.1
      rw [hlk] at h2
      simpa using h2
    show q.2 * 100 = 100 * keyTotal info q.1 stocks
    rw [hval]
    ring

/-- Witness for the amended C1: two half-weight holdings in one sector give
a breakdown summing to 100 and sorted. -/
theorem sector_breakdown_spec_witness :
    ((sector_breakdown infoTech exStocksHalf).map Prod.snd).sum = 100 ∧
    List.Sorted (fun a b : String × ℚ => b.2 ≤ a.2)
      (sector_breakdown infoTech exStocksHalf) :=
  ⟨(sector_breakdown_spec infoTech exStocksHalf (by decide) (by decide)
      (by simp [exStocksHalf]; norm_num)).1,
    (sector_breakdown_spec infoTech exStocksHalf (by decide) (by decide)
      (by simp [exStocksHalf]; norm_num)).2.1⟩

end FinSight
